import Mathlib

/-!
# puppeteer-plus: element-query helpers (src/index.js)

A shallow embedding of the helper layer that src/index.js attaches to the
browser-automation library: the class ElementSelector (lines 5-107), the
extensions of Page.prototype (lines 115-156) and the extensions of
ElementHandle.prototype (lines 164-221).

Promises are modelled by their final state (fulfilled, rejected, or never
settled); every call into the browser is recorded in a call log, so that
"issues no query" and "evaluates nothing" are statements about that log.
-/

namespace PuppeteerPlus

/-- An element handle is identified by the id of the remote object it refers to. -/
abbrev Handle := Nat

/-- The failures the code can meet: the two kinds of error the JavaScript
runtime raises by itself, and a failure coming from the browser
(page crashed, execution context destroyed). -/
inductive JSError
  | referenceError (name : String)
  | typeError (msg : String)
  | transport (e : String)
  deriving DecidableEq, Repr

/-- The final state of a promise. -/
inductive Settled (α : Type)
  | fulfilled (v : α)
  | rejected (e : JSError)
  | pending
  deriving DecidableEq, Repr

/-- The callback of a successful promise applied to its value. -/
def Settled.map {α β : Type} (f : α → β) : Settled α → Settled β
  | .fulfilled v => .fulfilled (f v)
  | .rejected e => .rejected e
  | .pending => .pending

/-- The JavaScript values the helpers handle. A promise object is a value of
its own: what it settles to is not visible to an operator applied to the
object itself. -/
inductive JSVal
  | undefined
  | null
  | bool (b : Bool)
  | str (s : String)
  | num (n : Int)
  | element (h : Handle)
  | box
  | promise
  deriving DecidableEq, Repr

/-- The test (v == null): loose equality with null holds of null and undefined only. -/
def JSVal.looseEqNull : JSVal → Bool
  | .null => true
  | .undefined => true
  | _ => false

/-- The test (v !== null): strict inequality with null fails on null only. -/
def JSVal.strictNeNull : JSVal → Bool
  | .null => false
  | _ => true

/-- The test (typeof v === "undefined"). -/
def JSVal.typeofUndefined : JSVal → Bool
  | .undefined => true
  | _ => false

/-- What page.$ fulfils with, as a JavaScript value: the handle, or null. -/
def toJS : Option Handle → JSVal
  | some h => .element h
  | none => .null

/-- A bounding box; the helpers only look at whether there is one. -/
structure BoundingBox where
  x : Int
  y : Int
  width : Nat
  height : Nat
  deriving DecidableEq, Repr

/-- What boundingBox() fulfils with, as a JavaScript value: a box object, or null. -/
def boxToJS : Option BoundingBox → JSVal
  | some _ => .box
  | none => .null

/-- A live DOM node as an in-page function sees it: its content attributes,
its properties (el.src, el.innerText, el.innerHTML are properties), and the
string it converts to when it is used as a name, String(el). -/
structure DomElement where
  attributes : List (String × String)
  props : List (String × JSVal)
  stringForm : String
  deriving DecidableEq, Repr

/-- The in-page call el.getAttribute(name): the attribute string, or null. -/
def DomElement.getAttribute (el : DomElement) (name : String) : JSVal :=
  match el.attributes.lookup name with
  | some v => .str v
  | none => .null

/-- The in-page read el[name]: the property value, or undefined. -/
def DomElement.prop (el : DomElement) (name : String) : JSVal :=
  match el.props.lookup name with
  | some v => v
  | none => .undefined

/-- Modelled from the spec: the external page and element-handle capabilities
(section 2), whose library code is not in src/. A page answers "resolve a
single element by selector" (page.$), "resolve all elements by selector"
(page.$$), lets a function be evaluated against the live node behind a handle,
and reports the bounding box of a handle. Each answer is a promise, so it may
also be rejected or never settle. A value of this type is the page as it
answers at one moment; a page that changes over time is a different value at
each call. -/
structure Page where
  query : String → Settled (Option Handle)
  queryAll : String → Settled (List Handle)
  node : Handle → Settled DomElement
  boundingBox : Handle → Settled (Option BoundingBox)

/-- A call into the browser. -/
inductive PageCall
  | query (selector : String)
  | queryAll (selector : String)
  | evaluate (h : Handle)
  | boundingBox (h : Handle)
  deriving DecidableEq, Repr

/-- The run of an asynchronous function: the final state of the promise it
returns and the browser calls it issued, in order. -/
structure Run (α : Type) where
  outcome : Settled α
  calls : List PageCall
  deriving DecidableEq, Repr

/-- A run that fulfils at once, without calling the browser. -/
def Run.ret {α : Type} (v : α) : Run α := ⟨.fulfilled v, []⟩

/-- A run that throws. -/
def Run.throw {α : Type} (e : JSError) : Run α := ⟨.rejected e, []⟩

/-- Awaiting a browser call: the call is logged and its promise is the outcome. -/
def Run.await {α : Type} (c : PageCall) (p : Settled α) : Run α := ⟨p, [c]⟩

/-- Sequencing, (await p) or p.then(f): f runs only once p is fulfilled; a
rejection passes through unchanged and a promise that never settles blocks. -/
def Run.bind {α β : Type} (r : Run α) (f : α → Run β) : Run β :=
  match r.outcome with
  | .fulfilled v => ⟨(f v).outcome, r.calls ++ (f v).calls⟩
  | .rejected e => ⟨.rejected e, r.calls⟩
  | .pending => ⟨.pending, r.calls⟩

/-- A handle to a value living in the browser, as evaluateHandle returns it. -/
structure JSHandle where
  value : JSVal
  deriving DecidableEq, Repr

/-- Modelled from the spec: handle.jsonValue() of the external library, the
transfer of the value "back across the capability boundary" (section 4.1);
the values of JSVal that a reader function returns are plain data and are
transferred as they are. -/
def JSHandle.jsonValue (h : JSHandle) : Run JSVal := Run.ret h.value

/-! ## class ElementSelector (lines 5-107) -/

/-- The instance state: the selector and the cache field. The field _element
does not exist until the first resolution; reading it then gives undefined.
The field _page is a reference to the page object: the operations take the
page as it is at the time of the call. -/
structure ElementSelector where
  _selector : String
  _element : JSVal
  deriving DecidableEq, Repr

/-- The constructor (lines 6-9) as Page.prototype.q calls it (lines 115-117). -/
def Page.q (selector : String) : ElementSelector := ⟨selector, .undefined⟩

/-- What the synchronous part of getElement does (lines 14-21): it resolves
with the cache, or issues page.$ with the stored selector. -/
inductive Resolution
  | cached (v : JSVal)
  | issued (selector : String)
  deriving DecidableEq, Repr

/-- The executor of the promise of getElement, lines 14-21. -/
def ElementSelector.getElementBegin (that : ElementSelector) : Resolution :=
  if that._element.typeofUndefined then .issued that._selector
  else .cached that._element

/-- The callback of lines 15-18, run when the promise of page.$ settles: on
fulfilment the value is stored and the outer promise resolved. The executor
takes resolve only and the inner promise has no rejection handler, so when
page.$ is rejected nothing resolves or rejects the outer promise. -/
def ElementSelector.getElementSettle (that : ElementSelector)
    (answer : Settled (Option Handle)) : Settled JSVal × ElementSelector :=
  match answer with
  | .fulfilled el => (.fulfilled (toJS el), { that with _element := toJS el })
  | .rejected _ => (.pending, that)
  | .pending => (.pending, that)

/-- getElement (lines 11-23), the query being answered by the page as it is. -/
def ElementSelector.getElement (that : ElementSelector) (pg : Page) :
    Run JSVal × ElementSelector :=
  match that.getElementBegin with
  | .cached v => (Run.ret v, that)
  | .issued selector =>
    ((Run.await (.query selector) (that.getElementSettle (pg.query selector)).1),
      (that.getElementSettle (pg.query selector)).2)

/-- The free identifier $el of line 32: the callback's parameter is el, the
module declares no $el, so the name is looked up in the global scope and the
read throws a ReferenceError when the scope has no such binding. -/
def readGlobal (globalScope : String → Option JSVal) (name : String) : Run JSVal :=
  match globalScope name with
  | some v => Run.ret v
  | none => Run.throw (.referenceError name)

/-- isVisible (lines 29-36). On a present element el.boundingBox() is called
and the promise it returns is compared with null, without being awaited. -/
def ElementSelector.isVisible (that : ElementSelector) (pg : Page)
    (globalScope : String → Option JSVal) : Run JSVal × ElementSelector :=
  ((that.getElement pg).1.bind fun el =>
    if el.looseEqNull then readGlobal globalScope "$el"
    else
      match el with
      | .element h =>
        ⟨.fulfilled (.bool (JSVal.promise.strictNeNull)), [.boundingBox h]⟩
      | _ => Run.throw (.typeError "el.boundingBox is not a function"),
   (that.getElement pg).2)

/-- The member evaluateHandle of an ElementSelector. The class body
(lines 5-107) declares constructor, getElement, isVisible, attr, text, html
and prop, the constructor sets _page and _selector, and the class extends
nothing: the instance has no such member and the read gives undefined. -/
def ElementSelector.evaluateHandle? :
    Option (Page → (DomElement → JSVal) → JSVal → Run JSHandle) := none

/-- The common body of attr, text, html and prop (lines 45-55, 64-70, 79-85,
95-105): null or undefined is returned as it is; otherwise
that.evaluateHandle(reader, $el, ...) is called on the ElementSelector and
its jsonValue() returned. Calling a member that is undefined throws a
TypeError. -/
def ElementSelector.read (that : ElementSelector) (pg : Page)
    (reader : DomElement → JSVal) : Run JSVal × ElementSelector :=
  ((that.getElement pg).1.bind fun el =>
    if el.looseEqNull then Run.ret el
    else
      match ElementSelector.evaluateHandle? with
      | none => Run.throw (.typeError "that.evaluateHandle is not a function")
      | some evaluateHandle => (evaluateHandle pg reader el).bind JSHandle.jsonValue,
   (that.getElement pg).2)

/-- attr (lines 43-56), reader (el, attr) => el.getAttribute(attr). -/
def ElementSelector.attr (that : ElementSelector) (pg : Page) (attr : String) :
    Run JSVal × ElementSelector :=
  that.read pg (fun el => el.getAttribute attr)

/-- text (lines 62-71), reader (el) => el.innerText. -/
def ElementSelector.text (that : ElementSelector) (pg : Page) :
    Run JSVal × ElementSelector :=
  that.read pg (fun el => el.prop "innerText")

/-- html (lines 77-86), reader (el) => el.innerHTML. -/
def ElementSelector.html (that : ElementSelector) (pg : Page) :
    Run JSVal × ElementSelector :=
  that.read pg (fun el => el.prop "innerHTML")

/-- prop (lines 93-106), reader (el, prop) => el[prop]. -/
def ElementSelector.prop (that : ElementSelector) (pg : Page) (prop : String) :
    Run JSVal × ElementSelector :=
  that.read pg (fun el => el.prop prop)

/-! ## Extensions of ElementHandle.prototype (lines 164-221) -/

/-- An argument of evaluateHandle as the caller passes it: a handle, or plain
data. -/
inductive CallArg
  | handle (h : Handle)
  | val (v : JSVal)
  deriving DecidableEq, Repr

/-- The same argument as the in-page function receives it: a handle has become
the live node it refers to. -/
inductive PageArg
  | node (el : DomElement)
  | val (v : JSVal)
  deriving DecidableEq, Repr

/-- String(v) of plain data. -/
def JSVal.asString : JSVal → String
  | .undefined => "undefined"
  | .null => "null"
  | .bool true => "true"
  | .bool false => "false"
  | .str s => s
  | .num n => toString n
  | _ => "[object Object]"

/-- The string an in-page value converts to when it is used as an attribute
name or a property key. -/
def PageArg.asString : PageArg → String
  | .node el => el.stringForm
  | .val v => v.asString

/-- The in-page test (a === s) against a string literal s: only the same
string is strictly equal to it. -/
def PageArg.strictEqStr (a : PageArg) (s : String) : Bool :=
  match a with
  | .val (.str t) => t == s
  | _ => false

/-- The transfer of one argument into the page. -/
def Page.resolveArg (pg : Page) : CallArg → Settled PageArg
  | .handle h => (pg.node h).map .node
  | .val v => .fulfilled (.val v)

/-- The transfer of the arguments into the page, in order. -/
def Page.resolveArgs (pg : Page) : List CallArg → Settled (List PageArg)
  | [] => .fulfilled []
  | a :: rest =>
    match pg.resolveArg a with
    | .fulfilled x => (pg.resolveArgs rest).map fun xs => x :: xs
    | .rejected e => .rejected e
    | .pending => .pending

/-- Modelled from the spec: the element-handle capability "evaluate a function
against this element" of the external library (section 2), whose code is not
in src/. handle.evaluateHandle(fn, ...args) runs fn in the page with the live
node of the handle as its first argument, followed by the arguments the caller
gave; the result comes back as a handle; the promise is rejected when the
browser fails. Here fn takes the node and the list of the arguments after it. -/
def ElementHandle.evaluateHandle (pg : Page) (fn : DomElement → List PageArg → JSVal)
    (h : Handle) (args : List CallArg) : Run JSHandle :=
  Run.await (.evaluate h)
    (match pg.node h with
     | .fulfilled el => (pg.resolveArgs args).map fun xs => ⟨fn el xs⟩
     | .rejected e => .rejected e
     | .pending => .pending)

/-- Modelled from the spec: the element-handle capability "get bounding box"
of the external library (section 2), whose code is not in src/. -/
def ElementHandle.boundingBox (pg : Page) (h : Handle) : Run (Option BoundingBox) :=
  Run.await (.boundingBox h) (pg.boundingBox h)

/-- Modelled from the spec: the class of element handles belongs to the
external library and is not in src/; its capability is "get bounding box" and
"evaluate a function against this element" (section 2), to which lines 164-221
add isVisible, getAttribute, attributes, innerText and prop. No member attr is
among them: reading the member attr of an element handle gives undefined. -/
def ElementHandle.attr? : Option (Page → Handle → List JSVal → Run JSVal) := none

/-- ElementHandle.prototype.isVisible (lines 164-166): the bounding box is awaited. -/
def ElementHandle.isVisible (pg : Page) (h : Handle) : Run JSVal :=
  (ElementHandle.boundingBox pg h).bind fun b => Run.ret (.bool (boxToJS b).strictNeNull)

/-- The second parameter of an in-page function: the first of the arguments
that follow the node, undefined when there is none. -/
def secondParam (rest : List PageArg) : PageArg := rest.headD (.val .undefined)

/-- The in-page reader of lines 175-181, (el, name) => ..., with el the node
and name its second parameter. -/
def ElementHandle.getAttributeReader (el : DomElement) (rest : List PageArg) : JSVal :=
  if (secondParam rest).strictEqStr "src" then el.prop "src"
  else el.getAttribute (secondParam rest).asString

/-- ElementHandle.prototype.getAttribute (lines 173-186): the reader is passed
to this.evaluateHandle with the explicit arguments (this, name). -/
def ElementHandle.getAttribute (pg : Page) (h : Handle) (name : String) : Run JSVal :=
  (ElementHandle.evaluateHandle pg ElementHandle.getAttributeReader h
      [.handle h, .val (.str name)]).bind
    JSHandle.jsonValue

/-- ElementHandle.prototype.innerText (lines 204-207): the reader
(el) => el.innerText with the explicit argument (this). -/
def ElementHandle.innerText (pg : Page) (h : Handle) : Run JSVal :=
  (ElementHandle.evaluateHandle pg (fun el _ => el.prop "innerText") h [.handle h]).bind
    JSHandle.jsonValue

/-- ElementHandle.prototype.prop (lines 214-221): the reader
(el, prop) => el[prop] with the explicit arguments (this, prop). -/
def ElementHandle.prop (pg : Page) (h : Handle) (prop : String) : Run JSVal :=
  (ElementHandle.evaluateHandle pg (fun el rest => el.prop (secondParam rest).asString) h
      [.handle h, .val (.str prop)]).bind
    JSHandle.jsonValue

/-! ## Extensions of Page.prototype (lines 115-156) -/

/-- Page.prototype.exists (lines 123-127): one page.$ and the test (el != null). -/
def Page.exists (pg : Page) (selector : String) : Run Bool :=
  (Run.await (.query selector) (pg.query selector)).bind fun el =>
    Run.ret (!(toJS el).looseEqNull)

/-- The loop of lines 137-139 over the elements left, list being the values
pushed so far; attributeName is the parameter attribute, a reserved word
here. The call elements[i].attr(attribute) throws a TypeError when
the member is undefined. -/
def Page.getElementsAttributeLoop (pg : Page) (attributeName : String) :
    List Handle → List JSVal → Run (List JSVal)
  | [], list => Run.ret list
  | el :: rest, list =>
    match ElementHandle.attr? with
    | none => Run.throw (.typeError "elements[i].attr is not a function")
    | some attr =>
      (attr pg el [.str attributeName]).bind fun v =>
        Page.getElementsAttributeLoop pg attributeName rest (list ++ [v])

/-- Page.prototype.getElementsAttribute (lines 133-143). -/
def Page.getElementsAttribute (pg : Page) (selector attributeName : String) :
    Run (List JSVal) :=
  (Run.await (.queryAll selector) (pg.queryAll selector)).bind fun elements =>
    Page.getElementsAttributeLoop pg attributeName elements []

/-- The selector built at line 151. -/
def Page.fieldSelector (selector field : String) : String :=
  selector ++ " [name=\"" ++ field ++ "\"]"

/-- The callback of lines 151-153 applied to what page.$ fulfilled with:
el.attr("value", fields[field]) is called and its result dropped. Reading a
member of null throws a TypeError, and so does calling a member that is
undefined. -/
def Page.fillField (pg : Page) (value : String) : Option Handle → Run Unit
  | none => Run.throw (.typeError "Cannot read properties of null")
  | some el =>
    match ElementHandle.attr? with
    | none => Run.throw (.typeError "el.attr is not a function")
    | some attr => ⟨.fulfilled (), (attr pg el [.str "value", .str value]).calls⟩

/-- Page.prototype.fill (lines 149-156); fields lists the entries of the
mapping in the order for-in enumerates them. -/
def Page.fill (pg : Page) (selector : String) : List (String × String) → Run Bool
  | [] => Run.ret true
  | (field, value) :: rest =>
    ((Run.await (.query (Page.fieldSelector selector field))
        (pg.query (Page.fieldSelector selector field))).bind
      (Page.fillField pg value)).bind fun _ => Page.fill pg selector rest

/-! ## Overlapping calls of getElement

Between the moment getElement issues page.$ and the moment the answer comes,
other calls on the same instance may start. The events at one instance are
the start of a call and the settlement of the query of an earlier call. -/

/-- An event at an ElementSelector: getElement() is called, or the query
issued by call number c settles with an answer of the page. -/
inductive Event
  | call
  | answer (c : Nat) (r : Settled (Option Handle))
  deriving DecidableEq, Repr

/-- The instance with its history: the calls started so far, the calls whose
query is still unanswered, the queries issued, and the calls completed with
the value each was resolved with, in order of completion. -/
structure Sys where
  self : ElementSelector
  started : Nat
  waiting : List Nat
  queries : List String
  completed : List (Nat × JSVal)
  deriving DecidableEq, Repr

/-- A new instance, nothing called yet. -/
def Sys.init (selector : String) : Sys := ⟨Page.q selector, 0, [], [], []⟩

/-- One event. A call runs the executor (lines 14-21): it completes at once
from the cache, or issues a query and waits. An answer to a waiting call runs
the callback of lines 15-18, which completes the call when the answer is a
fulfilment; an answer to a call that is not waiting is no event at all. -/
def Sys.step (σ : Sys) : Event → Sys
  | .call =>
    match σ.self.getElementBegin with
    | .cached v =>
      { σ with started := σ.started + 1, completed := σ.completed ++ [(σ.started, v)] }
    | .issued selector =>
      { σ with started := σ.started + 1, waiting := σ.waiting ++ [σ.started],
               queries := σ.queries ++ [selector] }
  | .answer c r =>
    if c ∈ σ.waiting then
      { σ with self := (σ.self.getElementSettle r).2,
               waiting := σ.waiting.erase c,
               completed :=
                 match (σ.self.getElementSettle r).1 with
                 | .fulfilled v => σ.completed ++ [(c, v)]
                 | _ => σ.completed }
    else σ

/-- A sequence of events. -/
def Sys.run (σ : Sys) : List Event → Sys
  | [] => σ
  | e :: es => (σ.step e).run es

/-- The call that event e completes in state σ, with its value. -/
def Sys.completes (σ : Sys) (e : Event) : Option (Nat × JSVal) :=
  match e with
  | .call =>
    match σ.self.getElementBegin with
    | .cached v => some (σ.started, v)
    | .issued _ => none
  | .answer c r =>
    if c ∈ σ.waiting then
      match (σ.self.getElementSettle r).1 with
      | .fulfilled v => some (c, v)
      | _ => none
    else none

/-- The values returned by the calls that start during the events es, from
state σ on, and have completed by their end. -/
def Sys.laterResults (σ : Sys) (es : List Event) : List JSVal :=
  ((σ.run es).completed.filter fun p => σ.started ≤ p.1).map Prod.snd

/-- The history is well formed: only calls already started are waiting or
completed. -/
def Sys.Wf (σ : Sys) : Prop :=
  (∀ p ∈ σ.completed, p.1 < σ.started) ∧ (∀ c ∈ σ.waiting, c < σ.started)

/-! ## Pages used as concrete inputs -/

/-- A link whose href is relative and which is not rendered; a link converts
to the string of its resolved href. -/
def docsLink : DomElement :=
  { attributes := [("href", "/docs"), ("class", "nav")],
    props := [("innerText", .str "Docs"), ("innerHTML", .str "<b>Docs</b>"),
              ("href", .str "https://example.test/docs")],
    stringForm := "https://example.test/docs" }

/-- An image whose src attribute is a relative path. -/
def logoImage : DomElement :=
  { attributes := [("src", "img/logo.png"), ("alt", "logo")],
    props := [("src", .str "https://example.test/img/logo.png"), ("innerText", .str "")],
    stringForm := "[object HTMLImageElement]" }

/-- A text input of a form. -/
def textInput : DomElement :=
  { attributes := [("name", "user")], props := [("value", .str "")],
    stringForm := "[object HTMLInputElement]" }

/-- A page with a hidden link (handle 1), an image (handle 2) and a form
#login with the inputs user (handle 3) and pass (handle 4). -/
def demoPage : Page where
  query := fun s =>
    if s = "a.docs" then .fulfilled (some 1)
    else if s = "img" then .fulfilled (some 2)
    else if s = "#login [name=\"user\"]" then .fulfilled (some 3)
    else if s = "#login [name=\"pass\"]" then .fulfilled (some 4)
    else .fulfilled none
  queryAll := fun s =>
    if s = "a.docs" then .fulfilled [1]
    else if s = "img" then .fulfilled [2]
    else if s = "input" then .fulfilled [3, 4]
    else .fulfilled []
  node := fun h =>
    if h = 1 then .fulfilled docsLink
    else if h = 2 then .fulfilled logoImage
    else .fulfilled textInput
  boundingBox := fun h =>
    if h = 1 then .fulfilled none else .fulfilled (some ⟨0, 0, 10, 10⟩)

/-- The same page before the link a.docs is added to it. -/
def demoPageBefore : Page where
  query := fun s => if s = "a.docs" then .fulfilled none else demoPage.query s
  queryAll := fun s => if s = "a.docs" then .fulfilled [] else demoPage.queryAll s
  node := demoPage.node
  boundingBox := demoPage.boundingBox

/-- A page whose execution context was destroyed: every request is rejected. -/
def crashedPage : Page where
  query := fun _ => .rejected (.transport "Execution context was destroyed")
  queryAll := fun _ => .rejected (.transport "Execution context was destroyed")
  node := fun _ => .rejected (.transport "Execution context was destroyed")
  boundingBox := fun _ => .rejected (.transport "Execution context was destroyed")

/-- The global scope of the module as it stands: no binding for any name the
helpers read. -/
def moduleGlobals : String → Option JSVal := fun _ => none

/-! ## Lemmas on the event model -/

theorem toJS_typeofUndefined (r : Option Handle) : (toJS r).typeofUndefined = false := by
  cases r <;> rfl

theorem Sys.step_answer (σ : Sys) (c : Nat) (r : Settled (Option Handle)) :
    σ.step (.answer c r) =
      if c ∈ σ.waiting then
        { σ with self := (σ.self.getElementSettle r).2,
                 waiting := σ.waiting.erase c,
                 completed :=
                   match (σ.self.getElementSettle r).1 with
                   | .fulfilled v => σ.completed ++ [(c, v)]
                   | _ => σ.completed }
      else σ := rfl

theorem Sys.completes_answer (σ : Sys) (c : Nat) (r : Settled (Option Handle)) :
    σ.completes (.answer c r) =
      if c ∈ σ.waiting then
        match (σ.self.getElementSettle r).1 with
        | .fulfilled v => some (c, v)
        | _ => none
      else none := rfl

theorem Sys.wf_init (selector : String) : (Sys.init selector).Wf := by
  constructor <;> intro p hp <;> simp [Sys.init] at hp

theorem Sys.wf_step (σ : Sys) (e : Event) (h : σ.Wf) : (σ.step e).Wf := by
  obtain ⟨hc, hw⟩ := h
  cases e with
  | call =>
    unfold Sys.step
    cases hb : σ.self.getElementBegin with
    | cached v =>
      refine ⟨?_, ?_⟩
      · intro p hp
        simp only [List.mem_append, List.mem_singleton] at hp
        rcases hp with hp | hp
        · exact Nat.lt_succ_of_lt (hc p hp)
        · subst hp; exact Nat.lt_succ_self _
      · intro c hcw
        exact Nat.lt_succ_of_lt (hw c hcw)
    | issued selector =>
      refine ⟨?_, ?_⟩
      · intro p hp
        exact Nat.lt_succ_of_lt (hc p hp)
      · intro c hcw
        simp only [List.mem_append, List.mem_singleton] at hcw
        rcases hcw with hcw | hcw
        · exact Nat.lt_succ_of_lt (hw c hcw)
        · subst hcw; exact Nat.lt_succ_self _
  | answer c r =>
    rw [Sys.step_answer]
    by_cases hmem : c ∈ σ.waiting
    · rw [if_pos hmem]
      refine ⟨?_, ?_⟩
      · intro p hp
        cases hs : (σ.self.getElementSettle r).1 with
        | fulfilled v =>
          simp only [hs, List.mem_append, List.mem_singleton] at hp
          rcases hp with hp | hp
          · exact hc p hp
          · subst hp; exact hw c hmem
        | rejected err =>
          simp only [hs] at hp
          exact hc p hp
        | pending =>
          simp only [hs] at hp
          exact hc p hp
      · intro d hd
        exact hw d (List.mem_of_mem_erase hd)
    · rw [if_neg hmem]
      exact ⟨hc, hw⟩

theorem Sys.wf_run (es : List Event) : ∀ σ : Sys, σ.Wf → (σ.run es).Wf := by
  induction es with
  | nil => intro σ h; exact h
  | cons e es ih => intro σ h; exact ih _ (Sys.wf_step σ e h)

theorem Sys.step_call_cached (σ : Sys) (h : σ.self._element.typeofUndefined = false) :
    σ.step .call =
      { σ with started := σ.started + 1,
               completed := σ.completed ++ [(σ.started, σ.self._element)] } := by
  simp [Sys.step, ElementSelector.getElementBegin, h]

theorem getElementSettle_typeofUndefined (that : ElementSelector)
    (r : Settled (Option Handle)) (h : that._element.typeofUndefined = false) :
    (that.getElementSettle r).2._element.typeofUndefined = false := by
  cases r with
  | fulfilled el => exact toJS_typeofUndefined el
  | rejected e => exact h
  | pending => exact h

/-- The calls completed by an answer are calls that were waiting: with every
waiting call older than n, an answer adds no completed call numbered n or
more. -/
theorem Sys.filter_step_answer (σ : Sys) (c n : Nat) (r : Settled (Option Handle))
    (hw : ∀ d ∈ σ.waiting, d < n) :
    (σ.step (.answer c r)).completed.filter (fun p => n ≤ p.1)
      = σ.completed.filter (fun p => n ≤ p.1) := by
  rw [Sys.step_answer]
  by_cases hmem : c ∈ σ.waiting
  · rw [if_pos hmem]
    have hlt : ¬ n ≤ c := Nat.not_le.mpr (hw c hmem)
    cases hs : (σ.self.getElementSettle r).1 with
    | fulfilled v => simp [hs, List.filter_append, hlt]
    | rejected e => simp [hs]
    | pending => simp [hs]
  · rw [if_neg hmem]

theorem Sys.waiting_step_answer (σ : Sys) (c : Nat) (r : Settled (Option Handle)) :
    ∀ d ∈ (σ.step (.answer c r)).waiting, d ∈ σ.waiting := by
  intro d hd
  rw [Sys.step_answer] at hd
  by_cases hmem : c ∈ σ.waiting
  · rw [if_pos hmem] at hd
    exact List.mem_of_mem_erase hd
  · rw [if_neg hmem] at hd
    exact hd

theorem Sys.started_step_answer (σ : Sys) (c : Nat) (r : Settled (Option Handle)) :
    (σ.step (.answer c r)).started = σ.started := by
  rw [Sys.step_answer]
  by_cases hmem : c ∈ σ.waiting
  · rw [if_pos hmem]
  · rw [if_neg hmem]

theorem Sys.queries_step_answer (σ : Sys) (c : Nat) (r : Settled (Option Handle)) :
    (σ.step (.answer c r)).queries = σ.queries := by
  rw [Sys.step_answer]
  by_cases hmem : c ∈ σ.waiting
  · rw [if_pos hmem]
  · rw [if_neg hmem]

theorem Sys.cache_step_answer (σ : Sys) (c : Nat) (r : Settled (Option Handle))
    (h : σ.self._element.typeofUndefined = false) :
    (σ.step (.answer c r)).self._element.typeofUndefined = false := by
  rw [Sys.step_answer]
  by_cases hmem : c ∈ σ.waiting
  · rw [if_pos hmem]
    exact getElementSettle_typeofUndefined σ.self r h
  · rw [if_neg hmem]
    exact h

/-- Once the cache holds a value, later events issue no query, and every call
among them completes at once. -/
theorem Sys.run_of_cached (es : List Event) : ∀ (σ : Sys) (n : Nat),
    σ.self._element.typeofUndefined = false → (∀ d ∈ σ.waiting, d < n) → n ≤ σ.started →
    (σ.run es).queries = σ.queries
      ∧ (((σ.run es).completed.filter fun p => n ≤ p.1).map Prod.snd).length
          = ((σ.completed.filter fun p => n ≤ p.1).map Prod.snd).length
              + es.count .call := by
  induction es with
  | nil => intro σ n _ _ _; simp [Sys.run]
  | cons e es ih =>
    intro σ n hu hw hn
    cases e with
    | call =>
      have hstep := Sys.step_call_cached σ hu
      obtain ⟨h1, h2⟩ := ih (σ.step .call) n (by rw [hstep]; exact hu)
        (by rw [hstep]; exact hw) (by rw [hstep]; exact Nat.le_succ_of_le hn)
      refine ⟨?_, ?_⟩
      · show ((σ.step .call).run es).queries = _
        rw [h1, hstep]
      · show ((((σ.step .call).run es).completed.filter fun p => n ≤ p.1).map
            Prod.snd).length = _
        rw [h2, hstep]
        simp [List.filter_append, hn]
        omega
    | answer c r =>
      obtain ⟨h1, h2⟩ := ih (σ.step (.answer c r)) n (Sys.cache_step_answer σ c r hu)
        (fun d hd => hw d (Sys.waiting_step_answer σ c r d hd))
        (by rw [Sys.started_step_answer]; exact hn)
      refine ⟨?_, ?_⟩
      · show ((σ.step (.answer c r)).run es).queries = _
        rw [h1, Sys.queries_step_answer]
      · show ((((σ.step (.answer c r)).run es).completed.filter fun p => n ≤ p.1).map
            Prod.snd).length = _
        rw [h2, Sys.filter_step_answer σ c n r hw]
        simp

/-- Once the cache holds the value v and every answer still to come to a
waiting call carries the same value, every later call returns v. -/
theorem Sys.run_of_agreeing (es : List Event) : ∀ (σ : Sys) (v : JSVal) (n : Nat),
    σ.self._element = v → v.typeofUndefined = false → (∀ d ∈ σ.waiting, d < n) →
    n ≤ σ.started →
    (∀ (d : Nat) (r : Option Handle),
        Event.answer d (.fulfilled r) ∈ es → d ∈ σ.waiting → toJS r = v) →
    ((σ.run es).completed.filter fun p => n ≤ p.1).map Prod.snd
      = ((σ.completed.filter fun p => n ≤ p.1).map Prod.snd)
          ++ List.replicate (es.count .call) v := by
  induction es with
  | nil => intro σ v n _ _ _ _ _; simp [Sys.run]
  | cons e es ih =>
    intro σ v n hv hu hw hn hsame
    cases e with
    | call =>
      have hstep := Sys.step_call_cached σ (by rw [hv]; exact hu)
      have h1 := ih (σ.step .call) v n (by rw [hstep]; exact hv) hu
        (by rw [hstep]; exact hw) (by rw [hstep]; exact Nat.le_succ_of_le hn)
        (by
          intro d r hmem hd
          rw [hstep] at hd
          exact hsame d r (List.mem_cons_of_mem _ hmem) hd)
      show (((σ.step .call).run es).completed.filter fun p => n ≤ p.1).map Prod.snd = _
      rw [h1, hstep]
      simp [List.filter_append, hn, List.replicate_succ, hv]
    | answer c r =>
      have hcache : (σ.step (.answer c r)).self._element = v := by
        rw [Sys.step_answer]
        by_cases hmem : c ∈ σ.waiting
        · rw [if_pos hmem]
          cases r with
          | fulfilled el =>
            exact hsame c el (List.mem_cons_self _ _) hmem
          | rejected err => exact hv
          | pending => exact hv
        · rw [if_neg hmem]
          exact hv
      have h1 := ih (σ.step (.answer c r)) v n hcache hu
        (fun d hd => hw d (Sys.waiting_step_answer σ c r d hd))
        (by rw [Sys.started_step_answer]; exact hn)
        (by
          intro d r' hmem hd
          exact hsame d r' (List.mem_cons_of_mem _ hmem) (Sys.waiting_step_answer σ c r d hd))
      show (((σ.step (.answer c r)).run es).completed.filter fun p => n ≤ p.1).map Prod.snd = _
      rw [h1, Sys.filter_step_answer σ c n r hw]
      simp

/-- The event that completes a call with a value leaves that value in the cache. -/
theorem Sys.cache_of_completes (σ : Sys) (e : Event) (c : Nat) (v : JSVal)
    (h : σ.completes e = some (c, v)) :
    (σ.step e).self._element = v ∧ v.typeofUndefined = false := by
  cases e with
  | call =>
    unfold Sys.completes at h
    unfold Sys.step
    cases hb : σ.self.getElementBegin with
    | cached w =>
      simp only [hb, Option.some.injEq, Prod.mk.injEq] at h
      obtain ⟨_, rfl⟩ := h
      unfold ElementSelector.getElementBegin at hb
      by_cases hu : σ.self._element.typeofUndefined = true
      · simp [hu] at hb
      · simp only [hu] at hb
        simp only [Bool.false_eq_true, if_false, Resolution.cached.injEq] at hb
        exact ⟨hb, by rw [← hb]; simpa using hu⟩
    | issued selector =>
      simp [hb] at h
  | answer d r =>
    rw [Sys.completes_answer] at h
    rw [Sys.step_answer]
    by_cases hmem : d ∈ σ.waiting
    · rw [if_pos hmem] at h
      rw [if_pos hmem]
      cases r with
      | fulfilled el =>
        simp only [ElementSelector.getElementSettle, Option.some.injEq, Prod.mk.injEq] at h
        obtain ⟨_, rfl⟩ := h
        exact ⟨rfl, toJS_typeofUndefined el⟩
      | rejected err => simp [ElementSelector.getElementSettle] at h
      | pending => simp [ElementSelector.getElementSettle] at h
    · rw [if_neg hmem] at h
      cases h

/-! ## C1: memoization of getElement -/

/-- C1, as stated, fails when calls overlap. Two calls of getElement start on
a new instance before either query is answered. The query of call 0 is
answered "not found", so call 0 completes with null. Then the query of call 1
is answered with element 7, and a call started after that returns element 7,
not null. -/
theorem getElement_memo_overlap_counterexample :
    ((Sys.init "a.docs").run [.call, .call]).completes (.answer 0 (.fulfilled none))
        = some (0, toJS none)
      ∧ (((Sys.init "a.docs").run [.call, .call]).step (.answer 0 (.fulfilled none))).laterResults
          [.answer 1 (.fulfilled (some 7)), .call] = [.element 7]
      ∧ (((Sys.init "a.docs").run [.call, .call]).step (.answer 0 (.fulfilled none))).laterResults
          [.answer 1 (.fulfilled (some 7)), .call]
          ≠ List.replicate ([Event.answer 1 (.fulfilled (some 7)), Event.call].count .call)
              (toJS none) := by
  decide

/-- C1, amended: in any history of an ElementSelector, once an event has
completed a getElement call with outcome r (an element handle, or null), then
whatever events follow (calls, and whatever answers the page gives), no
further page.$ query is issued and every call started afterwards completes at
once from the cache; and every such call returns r, provided that no query
that was still unanswered at that moment is answered afterwards with an
outcome other than r. -/
theorem getElement_memoized (selector : String) (pre : List Event) (e : Event) (c : Nat)
    (r : Option Handle) (es : List Event)
    (hdone : ((Sys.init selector).run pre).completes e = some (c, toJS r)) :
    ((((Sys.init selector).run pre).step e).run es).queries
        = (((Sys.init selector).run pre).step e).queries
      ∧ ((((Sys.init selector).run pre).step e).laterResults es).length = es.count .call
      ∧ ((∀ (d : Nat) (r' : Option Handle), Event.answer d (.fulfilled r') ∈ es →
            d ∈ (((Sys.init selector).run pre).step e).waiting → r' = r) →
          (((Sys.init selector).run pre).step e).laterResults es
            = List.replicate (es.count .call) (toJS r)) := by
  have hwf : (((Sys.init selector).run pre).step e).Wf :=
    Sys.wf_step _ e (Sys.wf_run pre _ (Sys.wf_init selector))
  obtain ⟨hcache, hdef⟩ := Sys.cache_of_completes _ e c (toJS r) hdone
  have hnone : ((((Sys.init selector).run pre).step e).completed.filter
      fun p => (((Sys.init selector).run pre).step e).started ≤ p.1) = [] := by
    rw [List.filter_eq_nil_iff]
    intro p hp
    have := hwf.1 p hp
    simp only [decide_eq_true_eq, Nat.not_le]
    exact this
  obtain ⟨h1, h2⟩ := Sys.run_of_cached es _
    (((Sys.init selector).run pre).step e).started (by rw [hcache]; exact hdef) hwf.2
    (Nat.le_refl _)
  refine ⟨h1, ?_, ?_⟩
  · unfold Sys.laterResults
    rw [h2, hnone]
    simp
  · intro hsame
    have h3 := Sys.run_of_agreeing es _ (toJS r)
      (((Sys.init selector).run pre).step e).started hcache hdef hwf.2 (Nat.le_refl _)
      (fun d r' hmem hd => by rw [hsame d r' hmem hd])
    unfold Sys.laterResults
    rw [h3, hnone]
    simp

/-- Witness of C1 amended: two calls overlap; the query of call 0 is answered
"not found" while the query of call 1 is unanswered. A later call, the answer
"not found" to call 1 and one more call follow: both later calls return null
and the queries stay the two issued at the start. -/
theorem getElement_memoized_witness :
    ((Sys.init "a.docs").run [.call, .call]).completes (.answer 0 (.fulfilled none))
        = some (0, toJS none)
      ∧ ((((Sys.init "a.docs").run [.call, .call]).step (.answer 0 (.fulfilled none))).run
          [.call, .answer 1 (.fulfilled none), .call]).queries = ["a.docs", "a.docs"]
      ∧ ((((Sys.init "a.docs").run [.call, .call]).step
            (.answer 0 (.fulfilled none))).laterResults
          [.call, .answer 1 (.fulfilled none), .call]).length = 2
      ∧ (((Sys.init "a.docs").run [.call, .call]).step
            (.answer 0 (.fulfilled none))).laterResults
          [.call, .answer 1 (.fulfilled none), .call] = [.null, .null] :=
  ⟨by decide,
    (getElement_memoized "a.docs" [.call, .call] (.answer 0 (.fulfilled none)) 0 none
      [.call, .answer 1 (.fulfilled none), .call] (by decide)).1,
    (getElement_memoized "a.docs" [.call, .call] (.answer 0 (.fulfilled none)) 0 none
      [.call, .answer 1 (.fulfilled none), .call] (by decide)).2.1,
    (getElement_memoized "a.docs" [.call, .call] (.answer 0 (.fulfilled none)) 0 none
      [.call, .answer 1 (.fulfilled none), .call] (by decide)).2.2
      (by
        intro d r' hmem _
        simp only [List.mem_cons, List.mem_singleton, Event.answer.injEq,
          Settled.fulfilled.injEq, List.not_mem_nil, or_false, reduceCtorEq, false_or] at hmem
        exact hmem.2)⟩

/-! ## C2: absence propagation -/

/-- C2: when page.$ finds no element for the selector, attr(name), text(),
html() and prop(name) of a new ElementSelector each complete with null, and
the only call made to the page is the page.$ query: nothing is evaluated. -/
theorem absent_accessors_return_null (pg : Page) (selector name : String)
    (habsent : pg.query selector = .fulfilled none) :
    ((Page.q selector).attr pg name).1 = ⟨.fulfilled .null, [.query selector]⟩
      ∧ ((Page.q selector).text pg).1 = ⟨.fulfilled .null, [.query selector]⟩
      ∧ ((Page.q selector).html pg).1 = ⟨.fulfilled .null, [.query selector]⟩
      ∧ ((Page.q selector).prop pg name).1 = ⟨.fulfilled .null, [.query selector]⟩ := by
  simp [ElementSelector.attr, ElementSelector.text, ElementSelector.html,
    ElementSelector.prop, ElementSelector.read, ElementSelector.getElement,
    ElementSelector.getElementBegin, ElementSelector.getElementSettle, Page.q,
    JSVal.typeofUndefined, habsent, Run.bind, Run.await, Run.ret, toJS, JSVal.looseEqNull]

/-- Witness of C2: the selector "a.missing" on the demo page. -/
theorem absent_accessors_return_null_witness :
    demoPage.query "a.missing" = .fulfilled none
      ∧ ((Page.q "a.missing").attr demoPage "href").1
          = ⟨.fulfilled .null, [.query "a.missing"]⟩
      ∧ ((Page.q "a.missing").text demoPage).1 = ⟨.fulfilled .null, [.query "a.missing"]⟩
      ∧ ((Page.q "a.missing").html demoPage).1 = ⟨.fulfilled .null, [.query "a.missing"]⟩
      ∧ ((Page.q "a.missing").prop demoPage "href").1
          = ⟨.fulfilled .null, [.query "a.missing"]⟩ :=
  ⟨by decide, absent_accessors_return_null demoPage "a.missing" "href" (by decide)⟩

/-! ## C3: accessors on a present element -/

/-- C3 at a failing input: on the demo page the selector "a.docs" resolves to
the link (handle 1), whose node can be evaluated and has the attribute href
"/docs", the text "Docs" and the markup "<b>Docs</b>"; attr("href"), text(),
html() and prop("href") are all rejected with a TypeError, since the
ElementSelector has no evaluateHandle member, and nothing is evaluated against
the page. -/
theorem selector_accessors_reject_on_present_element :
    demoPage.query "a.docs" = .fulfilled (some 1)
      ∧ demoPage.node 1 = .fulfilled docsLink
      ∧ docsLink.getAttribute "href" = .str "/docs"
      ∧ docsLink.prop "innerText" = .str "Docs"
      ∧ docsLink.prop "innerHTML" = .str "<b>Docs</b>"
      ∧ docsLink.prop "href" = .str "https://example.test/docs"
      ∧ ((Page.q "a.docs").attr demoPage "href").1
          = ⟨.rejected (.typeError "that.evaluateHandle is not a function"), [.query "a.docs"]⟩
      ∧ ((Page.q "a.docs").text demoPage).1
          = ⟨.rejected (.typeError "that.evaluateHandle is not a function"), [.query "a.docs"]⟩
      ∧ ((Page.q "a.docs").html demoPage).1
          = ⟨.rejected (.typeError "that.evaluateHandle is not a function"), [.query "a.docs"]⟩
      ∧ ((Page.q "a.docs").prop demoPage "href").1
          = ⟨.rejected (.typeError "that.evaluateHandle is not a function"),
              [.query "a.docs"]⟩ := by
  decide

/-! ## C4 and C5: isVisible -/

/-- C4 at a failing input: on the demo page the selector "a.docs" resolves to
handle 1, whose bounding box is null. isVisible() of the ElementSelector
returns true, because the promise of boundingBox() is compared with null
without being awaited; isVisible() of the element handle, which awaits it,
returns false. -/
theorem selector_isVisible_true_without_box :
    demoPage.query "a.docs" = .fulfilled (some 1)
      ∧ demoPage.boundingBox 1 = .fulfilled none
      ∧ ((Page.q "a.docs").isVisible demoPage moduleGlobals).1
          = ⟨.fulfilled (.bool true), [.query "a.docs", .boundingBox 1]⟩
      ∧ ElementHandle.isVisible demoPage 1 = ⟨.fulfilled (.bool false), [.boundingBox 1]⟩ := by
  decide

/-- C5 at a failing input: on the demo page the selector "a.missing" matches
nothing; isVisible() is rejected with ReferenceError "$el is not defined"
instead of completing with null. -/
theorem selector_isVisible_raises_on_absent :
    demoPage.query "a.missing" = .fulfilled none
      ∧ ((Page.q "a.missing").isVisible demoPage moduleGlobals).1
          = ⟨.rejected (.referenceError "$el"), [.query "a.missing"]⟩ := by
  decide

/-! ## C6: bulk attribute collection -/

/-- C6 at a failing input: on the demo page page.$$("a.docs") yields the one
element with handle 1, whose href attribute is "/docs". getElementsAttribute
is rejected with a TypeError at the first element, since an element handle has
no attr member, instead of completing with a list of length 1; only for a
selector that matches nothing does it complete, with the empty list. -/
theorem getElementsAttribute_rejects_on_match :
    demoPage.queryAll "a.docs" = .fulfilled [1]
      ∧ demoPage.node 1 = .fulfilled docsLink
      ∧ docsLink.getAttribute "href" = .str "/docs"
      ∧ demoPage.getElementsAttribute "a.docs" "href"
          = ⟨.rejected (.typeError "elements[i].attr is not a function"), [.queryAll "a.docs"]⟩
      ∧ demoPage.getElementsAttribute "a.missing" "href"
          = ⟨.fulfilled [], [.queryAll "a.missing"]⟩ := by
  decide

/-! ## C7: the attribute getter of element handles -/

/-- C7 at a failing input: handle 2 of the demo page is an image with the
attributes src "img/logo.png" and alt "logo" and the property src
"https://example.test/img/logo.png". getAttribute passes (this, name) to
this.evaluateHandle, which already puts the node first, so the reader runs
with the node as its name parameter: the src branch is not taken and the node
is asked for the attribute named by its own string form. getAttribute("src")
and getAttribute("alt") both complete with null, not with the URL and "logo". -/
theorem getAttribute_null_for_src_and_alt :
    demoPage.node 2 = .fulfilled logoImage
      ∧ logoImage.prop "src" = .str "https://example.test/img/logo.png"
      ∧ logoImage.getAttribute "alt" = .str "logo"
      ∧ ElementHandle.getAttribute demoPage 2 "src" = ⟨.fulfilled .null, [.evaluate 2]⟩
      ∧ ElementHandle.getAttribute demoPage 2 "alt" = ⟨.fulfilled .null, [.evaluate 2]⟩ := by
  decide

/-! ## C8: freshness of the existence check -/

/-- C8: every call of Page.exists issues exactly one page.$ query and
completes with false when the page answers null and with true when it answers
with an element. So for a page as it is before and after an element matching
the selector is added, the two calls return false then true; an
ElementSelector for the same selector that resolved on the page before still
returns its cached null on the page after. -/
theorem exists_is_fresh (before after : Page) (selector : String) (h : Handle)
    (hbefore : before.query selector = .fulfilled none)
    (hafter : after.query selector = .fulfilled (some h)) :
    before.exists selector = ⟨.fulfilled false, [.query selector]⟩
      ∧ after.exists selector = ⟨.fulfilled true, [.query selector]⟩
      ∧ (((Page.q selector).getElement before).2.getElement after).1
          = ⟨.fulfilled .null, []⟩ := by
  simp [Page.exists, Run.bind, Run.await, Run.ret, hbefore, hafter, toJS, JSVal.looseEqNull,
    ElementSelector.getElement, ElementSelector.getElementBegin,
    ElementSelector.getElementSettle, Page.q, JSVal.typeofUndefined]

/-- Witness of C8: the demo page before and after the link a.docs is added. -/
theorem exists_is_fresh_witness :
    demoPageBefore.query "a.docs" = .fulfilled none
      ∧ demoPage.query "a.docs" = .fulfilled (some 1)
      ∧ demoPageBefore.exists "a.docs" = ⟨.fulfilled false, [.query "a.docs"]⟩
      ∧ demoPage.exists "a.docs" = ⟨.fulfilled true, [.query "a.docs"]⟩
      ∧ (((Page.q "a.docs").getElement demoPageBefore).2.getElement demoPage).1
          = ⟨.fulfilled .null, []⟩ :=
  ⟨by decide, by decide, exists_is_fresh demoPageBefore demoPage "a.docs" 1 (by decide) (by decide)⟩

/-! ## C9: form fill -/

/-- C9 at a failing input: on the demo page both inputs of #login are found.
fill("#login", user ↦ "alice", pass ↦ "secret") is rejected with a TypeError at
the first field, since an element handle has no attr member: it does not
resolve with true, the second field is never looked up and nothing is
evaluated against the page, so no value property is set. -/
theorem fill_rejects_on_found_fields :
    demoPage.query (Page.fieldSelector "#login" "user") = .fulfilled (some 3)
      ∧ demoPage.query (Page.fieldSelector "#login" "pass") = .fulfilled (some 4)
      ∧ demoPage.fill "#login" [("user", "alice"), ("pass", "secret")]
          = ⟨.rejected (.typeError "el.attr is not a function"),
              [.query "#login [name=\"user\"]"]⟩ := by
  decide

/-! ## C10: failure of the page.$ query -/

/-- C10 at a failing input: on a page whose page.$ is rejected with the error
"Execution context was destroyed", the promises of getElement, isVisible,
attr, text, html and prop never settle: the error does not reach the caller.
Page.exists on the same page is rejected with that error. -/
theorem getElement_pending_on_rejected_query :
    crashedPage.query "a.docs" = .rejected (.transport "Execution context was destroyed")
      ∧ ((Page.q "a.docs").getElement crashedPage).1.outcome = .pending
      ∧ ((Page.q "a.docs").isVisible crashedPage moduleGlobals).1.outcome = .pending
      ∧ ((Page.q "a.docs").attr crashedPage "href").1.outcome = .pending
      ∧ ((Page.q "a.docs").text crashedPage).1.outcome = .pending
      ∧ ((Page.q "a.docs").html crashedPage).1.outcome = .pending
      ∧ ((Page.q "a.docs").prop crashedPage "href").1.outcome = .pending
      ∧ (crashedPage.exists "a.docs").outcome
          = .rejected (.transport "Execution context was destroyed") := by
  decide

end PuppeteerPlus
